import Mathlib

/-!
Shallow embedding of `src/main.py` (youtube-transcript service).

Python strings are modelled as `List Char` (a Python `str` is a sequence of
code points). The external retrieval service is modelled as data: listing
either succeeds with a list of transcript descriptors or raises one of the
library's failure signals; fetching a descriptor either succeeds with a list
of segments or raises (the raised message is carried as a `List Char`).
-/

/-- A transcript segment as produced by fetching a descriptor
(`fetch() -> [{text, start, duration}]`). -/
structure Segment where
  text : List Char
  start : Int
  duration : Int
deriving DecidableEq

deriving instance DecidableEq for Except

/-- A transcript descriptor as yielded by `ytt_api.list_transcripts`:
`language_code`, `is_generated`, and the outcome of calling `.fetch()` on it
(`.error msg` models `fetch` raising an exception with message `msg`). -/
structure TranscriptDescriptor where
  language_code : List Char
  is_generated : Bool
  fetchResult : Except (List Char) (List Segment)
deriving DecidableEq

/-- Outcome of `ytt_api.list_transcripts(video_id)`: a descriptor list, or one
of the exceptions handled in `get_transcript` (`TranscriptsDisabled`,
`NoTranscriptFound`, or any other exception with message `msg`). -/
inductive ListingResult where
  | ok (descs : List TranscriptDescriptor)
  | transcriptsDisabled
  | noTranscriptFound
  | otherError (msg : List Char)
deriving DecidableEq

/-- The JSON response shape built by `get_transcript`. -/
structure Response where
  success : Bool
  fail_reason : Option (List Char)
  language : Option (List Char)
  transcript : Option (List Char)
deriving DecidableEq

/-! ## URL resolver (`extract_video_id`, src/main.py lines 15-29)

The three regexes are alternations of fixed-length prefixes (literal
characters, with the unescaped `.` as a wildcard), a greedy capture group
`[^#&?]*`, and a trailing `.*` that can always match empty. `re.search`
finds the leftmost position where the pattern matches; at that position the
alternatives are tried left to right. -/

/-- One element of a regex prefix: a literal character, or the unescaped `.`
which matches any character except a newline. -/
inductive RElem where
  | lit (c : Char)
  | dot
deriving DecidableEq

/-- Whether a single pattern element matches a single character. -/
def matchElem : RElem → Char → Bool
  | .lit a, c => a = c
  | .dot, c => c ≠ '\n'

/-- Match a fixed-length alternative against the front of `s`; on success
return the rest of the string (where the capture group starts). -/
def matchAlt : List RElem → List Char → Option (List Char)
  | [], rest => some rest
  | _ :: _, [] => none
  | e :: es, c :: cs => if matchElem e c then matchAlt es cs else none

/-- Try the alternatives of the `(?:...|...)` group in order at one position. -/
def tryAlts (alts : List (List RElem)) (s : List Char) : Option (List Char) :=
  alts.findSome? (fun a => matchAlt a s)

/-- `re.search` position scan: leftmost position wins; alternatives are tried
in order at each position. -/
def searchFrom (alts : List (List RElem)) : List Char → Option (List Char)
  | [] => tryAlts alts []
  | c :: cs =>
    match tryAlts alts (c :: cs) with
    | some rest => some rest
    | none => searchFrom alts cs

/-- The character class `[^#\&\?]` of the capture group, negated. -/
def isStopChar (c : Char) : Bool := c = '#' || c = '&' || c = '?'

/-- `re.search(pattern, s)` followed by `match.group(1)`: the capture group
`([^#\&\?]*)` is greedy and the trailing `.*` can always match empty, so the
group is the maximal run of non-stop characters after the matched prefix. -/
def reSearchGroup (alts : List (List RElem)) (s : List Char) : Option (List Char) :=
  (searchFrom alts s).map (fun rest => rest.takeWhile (fun c => !isStopChar c))

/-- Literal regex characters from a string. -/
def lits (s : String) : List RElem := s.data.map RElem.lit

/-- First regex: `(?:v=|\/videos\/|embed\/|youtu.be\/|\/v\/|\/e\/|watch\?v=|\&v=)([^#\&\?]*).*`
(the `.` in `youtu.be` is unescaped, hence a wildcard). -/
def pattern1 : List (List RElem) :=
  [lits "v=", lits "/videos/", lits "embed/",
   lits "youtu" ++ [RElem.dot] ++ lits "be/",
   lits "/v/", lits "/e/", lits "watch?v=", lits "&v="]

/-- Second regex: `(?:youtube.com\/shorts\/)([^#\&\?]*).*`. -/
def pattern2 : List (List RElem) :=
  [lits "youtube" ++ [RElem.dot] ++ lits "com/shorts/"]

/-- Third regex: `(?:youtube.com\/live\/)([^#\&\?]*).*`. -/
def pattern3 : List (List RElem) :=
  [lits "youtube" ++ [RElem.dot] ++ lits "com/live/"]

/-- The `patterns` list of `extract_video_id`, in source order. -/
def patterns : List (List (List RElem)) := [pattern1, pattern2, pattern3]

/-- `extract_video_id` (src/main.py lines 15-29): try each pattern in order,
return the first match's capture group, else `None`. -/
def extract_video_id (url : List Char) : Option (List Char) :=
  patterns.findSome? (fun p => reSearchGroup p url)

/-! ## Transcript selection (`get_transcript`, src/main.py lines 32-171) -/

/-- The three mutable locals of `get_transcript` initialised at lines 73-75:
`found_transcript = None`, `language_code = None`, `is_generated = False`.
`found_transcript` holds the fetched segment list once a fetch succeeds. -/
structure SelectionState where
  found_transcript : Option (List Segment)
  language_code : Option (List Char)
  is_generated : Bool
deriving DecidableEq

/-- Python truthiness of `found_transcript` (`None` and the empty list are
falsy), as tested at lines 100 and 123. -/
def truthy : Option (List Segment) → Bool
  | none => false
  | some segs => !segs.isEmpty

/-- The manual block (lines 78-98): filter out the manual descriptors, prefer
a `language_code == "en"` one, else the first manual one; a fetch that raises
is swallowed by `except Exception: pass`, leaving the initial state (the
assignments at lines 89-90 and 95-96 happen only after `fetch()` returns). -/
def afterManual (transcript_list : List TranscriptDescriptor) : SelectionState :=
  let manual_transcripts := transcript_list.filter (fun t => !t.is_generated)
  match manual_transcripts with
  | [] => ⟨none, none, false⟩
  | t0 :: _ =>
    match manual_transcripts.find? (fun t => t.language_code = "en".data) with
    | some english_manual =>
      match english_manual.fetchResult with
      | .ok segs => ⟨some segs, some "en".data, false⟩
      | .error _ => ⟨none, none, false⟩
    | none =>
      match t0.fetchResult with
      | .ok segs => ⟨some segs, some t0.language_code, false⟩
      | .error _ => ⟨none, none, false⟩

/-- The generated block (lines 100-121): entered only when `found_transcript`
is falsy; mirrors the manual block on the generated descriptors, with the
language recorded as `"en_generated"` or `f"{code}_generated"`; a raising
fetch is swallowed, leaving the incoming state unchanged. -/
def afterGenerated (transcript_list : List TranscriptDescriptor)
    (st : SelectionState) : SelectionState :=
  if truthy st.found_transcript then st
  else
    let generated_transcripts := transcript_list.filter (fun t => t.is_generated)
    match generated_transcripts with
    | [] => st
    | t0 :: _ =>
      match generated_transcripts.find? (fun t => t.language_code = "en".data) with
      | some english_generated =>
        match english_generated.fetchResult with
        | .ok segs => ⟨some segs, some "en_generated".data, true⟩
        | .error _ => st
      | none =>
        match t0.fetchResult with
        | .ok segs => ⟨some segs, some (t0.language_code ++ "_generated".data), true⟩
        | .error _ => st

/-- Python `s.endswith(t)`. -/
def endswith (s t : List Char) : Bool := t.isSuffixOf s

/-- Python `s.replace(pat, rep)`, stepwise: at each position, if `pat` is a
(nonempty) prefix, emit `rep` and skip past the occurrence, else keep the
character; occurrences are non-overlapping, scanned left to right. The `fuel`
argument only makes the recursion structural: every step consumes at least
one character, so `fuel = s.length` (see `replaceAll`) never runs out. -/
def replaceAllFuel (pat rep : List Char) : Nat → List Char → List Char
  | _, [] => []
  | 0, s => s
  | fuel + 1, c :: cs =>
    if pat ≠ [] ∧ pat.isPrefixOf (c :: cs) then
      rep ++ replaceAllFuel pat rep fuel (cs.drop (pat.length - 1))
    else
      c :: replaceAllFuel pat rep fuel cs

/-- Python `s.replace(pat, rep)` (`pat` is nonempty at the one call site). -/
def replaceAll (pat rep s : List Char) : List Char :=
  replaceAllFuel pat rep s.length s

/-- Python `" ".join(item["text"] for item in segs)`. -/
def joinTexts (segs : List Segment) : List Char :=
  List.intercalate [' '] (segs.map (fun s => s.text))

/-- Lines 123-146: when `found_transcript` is truthy, build the success
response, adjusting the language code (append `_generated` for a generated
transcript whose code lacks the suffix; strip `_generated` from a manual
transcript whose code carries it); otherwise return `no_transcript_available`. -/
def finishSelection (st : SelectionState) : Response :=
  if truthy st.found_transcript then
    let segs := st.found_transcript.getD []
    let language_code := st.language_code.getD []
    let transcript_text := joinTexts segs
    let final_language_code :=
      if st.is_generated && !(endswith language_code "_generated".data) then
        language_code ++ "_generated".data
      else if !st.is_generated && endswith language_code "_generated".data then
        replaceAll "_generated".data [] language_code
      else language_code
    ⟨true, none, some final_language_code, some transcript_text⟩
  else
    ⟨false, some "no_transcript_available".data, none, none⟩

/-- The body of the outer `try` (lines 65-146) applied to a listing outcome,
with the `except` arms of lines 148-171. -/
def handleListing : ListingResult → Response
  | .ok transcript_list =>
    finishSelection (afterGenerated transcript_list (afterManual transcript_list))
  | .transcriptsDisabled => ⟨false, some "transcripts_disabled".data, none, none⟩
  | .noTranscriptFound => ⟨false, some "no_transcript_found_for_video".data, none, none⟩
  | .otherError msg => ⟨false, some ("other: ".data ++ msg), none, none⟩

/-- `get_transcript` (lines 32-171): resolve the URL; `if not video_id:`
treats both `None` and the empty string as invalid; otherwise consult the
retrieval service (passed here as a function from video id to listing
outcome) and shape the response. The proxy configuration (lines 44-63) does
not affect the response shape and is not modelled. -/
def get_transcript (url : List Char)
    (listTranscripts : List Char → ListingResult) : Response :=
  match extract_video_id url with
  | none => ⟨false, some "invalid_url".data, none, none⟩
  | some video_id =>
    if video_id = [] then ⟨false, some "invalid_url".data, none, none⟩
    else handleListing (listTranscripts video_id)

/-! ## Selection-policy helpers (read off the same source lines, used to
state the claims) -/

/-- The manual descriptor whose `fetch()` the manual block calls, when any:
the first manual descriptor with language code `"en"`, else the first manual
descriptor in service order (lines 84-93). -/
def selectedManual (descs : List TranscriptDescriptor) : Option TranscriptDescriptor :=
  let m := descs.filter (fun t => !t.is_generated)
  match m.find? (fun t => t.language_code = "en".data) with
  | some t => some t
  | none => m.head?

/-- The generated descriptor whose `fetch()` the generated block calls, when
any (lines 106-116). -/
def selectedGenerated (descs : List TranscriptDescriptor) : Option TranscriptDescriptor :=
  let g := descs.filter (fun t => t.is_generated)
  match g.find? (fun t => t.language_code = "en".data) with
  | some t => some t
  | none => g.head?

/-- The language-code adjustment lines 126-131 perform on a manual
transcript's code. -/
def stripGen (code : List Char) : List Char :=
  if endswith code "_generated".data then replaceAll "_generated".data [] code
  else code

/-! ## Helper lemmas -/

theorem truthy_some_of_ne_nil {segs : List Segment} (h : segs ≠ []) :
    truthy (some segs) = true := by
  cases segs with
  | nil => exact absurd rfl h
  | cons a as => rfl

theorem endswith_append (s t : List Char) : endswith (s ++ t) t = true := by
  simp [endswith, List.isSuffixOf_iff_suffix]

theorem mem_of_selectedManual {descs : List TranscriptDescriptor}
    {d : TranscriptDescriptor} (h : selectedManual descs = some d) :
    d ∈ descs.filter (fun t => !t.is_generated) := by
  unfold selectedManual at h
  dsimp only at h
  cases hf : (descs.filter (fun t => !t.is_generated)).find?
      (fun t => t.language_code = "en".data) with
  | some t =>
    rw [hf] at h
    cases h
    exact List.mem_of_find?_eq_some hf
  | none =>
    rw [hf] at h
    exact List.mem_of_mem_head? (Option.mem_def.mpr h)

theorem mem_of_selectedGenerated {descs : List TranscriptDescriptor}
    {d : TranscriptDescriptor} (h : selectedGenerated descs = some d) :
    d ∈ descs.filter (fun t => t.is_generated) := by
  unfold selectedGenerated at h
  dsimp only at h
  cases hf : (descs.filter (fun t => t.is_generated)).find?
      (fun t => t.language_code = "en".data) with
  | some t =>
    rw [hf] at h
    cases h
    exact List.mem_of_find?_eq_some hf
  | none =>
    rw [hf] at h
    exact List.mem_of_mem_head? (Option.mem_def.mpr h)

theorem selectedManual_not_generated {descs : List TranscriptDescriptor}
    {d : TranscriptDescriptor} (h : selectedManual descs = some d) :
    d.is_generated = false := by
  have hm := mem_of_selectedManual h
  rw [List.mem_filter] at hm
  simpa using hm.2

theorem selectedGenerated_is_generated {descs : List TranscriptDescriptor}
    {d : TranscriptDescriptor} (h : selectedGenerated descs = some d) :
    d.is_generated = true := by
  have hm := mem_of_selectedGenerated h
  rw [List.mem_filter] at hm
  exact hm.2

theorem afterManual_ok {descs : List TranscriptDescriptor}
    {d : TranscriptDescriptor} {segs : List Segment}
    (hsel : selectedManual descs = some d)
    (hfetch : d.fetchResult = .ok segs) :
    afterManual descs = ⟨some segs, some d.language_code, false⟩ := by
  unfold selectedManual at hsel
  dsimp only at hsel
  cases hm : descs.filter (fun t => !t.is_generated) with
  | nil =>
    rw [hm] at hsel
    simp at hsel
  | cons t0 rest =>
    rw [hm] at hsel
    cases hf : (t0 :: rest).find? (fun t => t.language_code = "en".data) with
    | some t =>
      rw [hf] at hsel
      cases hsel
      have hen : d.language_code = "en".data := by simpa using List.find?_some hf
      simp [afterManual, hm, hf, hfetch, hen]
    | none =>
      rw [hf] at hsel
      simp only [List.head?_cons, Option.some.injEq] at hsel
      subst hsel
      simp [afterManual, hm, hf, hfetch]

theorem afterManual_error {descs : List TranscriptDescriptor}
    {d : TranscriptDescriptor} {msg : List Char}
    (hsel : selectedManual descs = some d)
    (hfetch : d.fetchResult = .error msg) :
    afterManual descs = ⟨none, none, false⟩ := by
  unfold selectedManual at hsel
  dsimp only at hsel
  cases hm : descs.filter (fun t => !t.is_generated) with
  | nil =>
    rw [hm] at hsel
    simp at hsel
  | cons t0 rest =>
    rw [hm] at hsel
    cases hf : (t0 :: rest).find? (fun t => t.language_code = "en".data) with
    | some t =>
      rw [hf] at hsel
      cases hsel
      simp [afterManual, hm, hf, hfetch]
    | none =>
      rw [hf] at hsel
      simp only [List.head?_cons, Option.some.injEq] at hsel
      subst hsel
      simp [afterManual, hm, hf, hfetch]

theorem afterManual_none_of_no_manual {descs : List TranscriptDescriptor}
    (h : selectedManual descs = none) :
    afterManual descs = ⟨none, none, false⟩ := by
  unfold selectedManual at h
  dsimp only at h
  cases hm : descs.filter (fun t => !t.is_generated) with
  | nil => simp [afterManual, hm]
  | cons t0 rest =>
    rw [hm] at h
    cases hf : (t0 :: rest).find? (fun t => t.language_code = "en".data) with
    | some t => rw [hf] at h; simp at h
    | none => rw [hf] at h; simp at h

theorem afterGenerated_of_truthy {descs : List TranscriptDescriptor}
    {st : SelectionState} (h : truthy st.found_transcript = true) :
    afterGenerated descs st = st := by
  simp [afterGenerated, h]

theorem afterGenerated_ok {descs : List TranscriptDescriptor}
    {d : TranscriptDescriptor} {segs : List Segment} {st : SelectionState}
    (hst : truthy st.found_transcript = false)
    (hsel : selectedGenerated descs = some d)
    (hfetch : d.fetchResult = .ok segs) :
    afterGenerated descs st =
      ⟨some segs, some (d.language_code ++ "_generated".data), true⟩ := by
  unfold selectedGenerated at hsel
  dsimp only at hsel
  cases hm : descs.filter (fun t => t.is_generated) with
  | nil =>
    rw [hm] at hsel
    simp at hsel
  | cons t0 rest =>
    rw [hm] at hsel
    cases hf : (t0 :: rest).find? (fun t => t.language_code = "en".data) with
    | some t =>
      rw [hf] at hsel
      cases hsel
      have hen : d.language_code = "en".data := by simpa using List.find?_some hf
      simp [afterGenerated, hst, hm, hf, hfetch, hen]
    | none =>
      rw [hf] at hsel
      simp only [List.head?_cons, Option.some.injEq] at hsel
      subst hsel
      simp [afterGenerated, hst, hm, hf, hfetch]

theorem afterGenerated_error {descs : List TranscriptDescriptor}
    {d : TranscriptDescriptor} {msg : List Char} {st : SelectionState}
    (hst : truthy st.found_transcript = false)
    (hsel : selectedGenerated descs = some d)
    (hfetch : d.fetchResult = .error msg) :
    afterGenerated descs st = st := by
  unfold selectedGenerated at hsel
  dsimp only at hsel
  cases hm : descs.filter (fun t => t.is_generated) with
  | nil =>
    rw [hm] at hsel
    simp at hsel
  | cons t0 rest =>
    rw [hm] at hsel
    cases hf : (t0 :: rest).find? (fun t => t.language_code = "en".data) with
    | some t =>
      rw [hf] at hsel
      cases hsel
      simp [afterGenerated, hst, hm, hf, hfetch]
    | none =>
      rw [hf] at hsel
      simp only [List.head?_cons, Option.some.injEq] at hsel
      subst hsel
      simp [afterGenerated, hst, hm, hf, hfetch]

theorem finishSelection_not_truthy {st : SelectionState}
    (h : truthy st.found_transcript = false) :
    finishSelection st = ⟨false, some "no_transcript_available".data, none, none⟩ := by
  simp [finishSelection, h]

theorem finishSelection_manual {segs : List Segment} {lang : List Char}
    (hne : segs ≠ []) :
    finishSelection ⟨some segs, some lang, false⟩ =
      ⟨true, none, some (stripGen lang), some (joinTexts segs)⟩ := by
  have ht : truthy (some segs) = true := truthy_some_of_ne_nil hne
  cases h : endswith lang "_generated".data with
  | true => simp [finishSelection, ht, h, stripGen]
  | false => simp [finishSelection, ht, h, stripGen]

theorem finishSelection_generated {segs : List Segment} {lang : List Char}
    (hne : segs ≠ []) (hsuf : endswith lang "_generated".data = true) :
    finishSelection ⟨some segs, some lang, true⟩ =
      ⟨true, none, some lang, some (joinTexts segs)⟩ := by
  have ht : truthy (some segs) = true := truthy_some_of_ne_nil hne
  simp [finishSelection, ht, hsuf]

/-- Manual selection succeeding with a non-empty fetch determines the whole
response (lines 78-98 then 123-137). -/
theorem handleListing_manual_ok {descs : List TranscriptDescriptor}
    {d : TranscriptDescriptor} {segs : List Segment}
    (hsel : selectedManual descs = some d)
    (hfetch : d.fetchResult = .ok segs) (hne : segs ≠ []) :
    handleListing (.ok descs) =
      ⟨true, none, some (stripGen d.language_code), some (joinTexts segs)⟩ := by
  have hm := afterManual_ok hsel hfetch
  have ht : truthy (afterManual descs).found_transcript = true := by
    rw [hm]; exact truthy_some_of_ne_nil hne
  show finishSelection (afterGenerated descs (afterManual descs)) = _
  rw [afterGenerated_of_truthy ht, hm]
  exact finishSelection_manual hne

/-- Generated selection succeeding with a non-empty fetch, after a manual
phase that produced nothing truthy, determines the whole response. -/
theorem handleListing_generated_ok {descs : List TranscriptDescriptor}
    {d : TranscriptDescriptor} {segs : List Segment}
    (hman : truthy (afterManual descs).found_transcript = false)
    (hsel : selectedGenerated descs = some d)
    (hfetch : d.fetchResult = .ok segs) (hne : segs ≠ []) :
    handleListing (.ok descs) =
      ⟨true, none, some (d.language_code ++ "_generated".data),
        some (joinTexts segs)⟩ := by
  have hg := afterGenerated_ok hman hsel hfetch
  show finishSelection (afterGenerated descs (afterManual descs)) = _
  rw [hg]
  exact finishSelection_generated hne (endswith_append _ _)

theorem handleListing_not_truthy {descs : List TranscriptDescriptor}
    (h : truthy (afterGenerated descs (afterManual descs)).found_transcript = false) :
    handleListing (.ok descs) =
      ⟨false, some "no_transcript_available".data, none, none⟩ := by
  show finishSelection (afterGenerated descs (afterManual descs)) = _
  exact finishSelection_not_truthy h

theorem no_stop_of_reSearchGroup {alts : List (List RElem)} {s v : List Char}
    {c : Char} (h : reSearchGroup alts s = some v) (hc : c ∈ v) :
    isStopChar c = false := by
  unfold reSearchGroup at h
  cases hs : searchFrom alts s with
  | none =>
    rw [hs] at h
    exact absurd h (by simp)
  | some rest =>
    rw [hs] at h
    simp only [Option.map_some', Option.some.injEq] at h
    subst h
    have hall := List.all_takeWhile (l := rest) (p := fun c => !isStopChar c)
    rw [List.all_eq_true] at hall
    simpa using hall c hc

/-! ## Claims -/

/-! ### C1 -/

/-- Manual French descriptor with a successful one-segment fetch. -/
def c1Fr : TranscriptDescriptor := ⟨"fr".data, false, .ok [⟨"bonjour".data, 0, 0⟩]⟩

/-- Generated English descriptor with a successful fetch. -/
def c1EnGen : TranscriptDescriptor := ⟨"en".data, true, .ok [⟨"hello".data, 0, 0⟩]⟩

/-- The descriptor list of the spec example `[{fr, generated=false}, {en, generated=true}]`. -/
def c1List : List TranscriptDescriptor := [c1Fr, c1EnGen]

/-- Manual English descriptor whose fetch raises. -/
def c1BadEn : TranscriptDescriptor := ⟨"en".data, false, .error "boom".data⟩

/-- Generated German descriptor with a successful fetch. -/
def c1DeGen : TranscriptDescriptor := ⟨"de".data, true, .ok [⟨"hallo".data, 0, 0⟩]⟩

/-- A list containing a manual descriptor whose fetch succeeds (`c1Fr`), in
which the selection nevertheless ends on a generated transcript. -/
def c1CexList : List TranscriptDescriptor := [c1Fr, c1BadEn, c1DeGen]

/-- C1 counterexample: `c1CexList` contains a manually-authored descriptor
(`c1Fr`, isGenerated = false) whose fetch succeeds, yet the selector returns
the auto-generated German transcript (language `de_generated`): the manual
block fetches the manual `en` descriptor, whose raised fetch is swallowed,
and falls through to the generated group without trying `fr`. -/
theorem C1_counterexample :
    c1Fr ∈ c1CexList ∧ c1Fr.is_generated = false ∧
    c1Fr.fetchResult = Except.ok [⟨"bonjour".data, 0, 0⟩] ∧
    handleListing (.ok c1CexList) =
      ⟨true, none, some "de_generated".data, some "hallo".data⟩ := by
  refine ⟨by decide, by decide, by decide, by decide⟩

/-- C1 (amended): for every descriptor list whose manual group is non-empty,
if the fetch of the one manual descriptor the selector actually tries (the
first with languageCode "en" if any, else the first manual one) succeeds with
a non-empty segment list, then the selection result is that manual
descriptor, never an auto-generated one, regardless of language: the
response is a success whose language is the manual descriptor's code (with
any `_generated` suffix stripped) and whose transcript is its fetched text. -/
theorem C1_manual_over_generated
    (descs : List TranscriptDescriptor) (d : TranscriptDescriptor)
    (segs : List Segment)
    (hsel : selectedManual descs = some d)
    (hfetch : d.fetchResult = Except.ok segs) (hne : segs ≠ []) :
    d.is_generated = false ∧
    handleListing (.ok descs) =
      ⟨true, none, some (stripGen d.language_code), some (joinTexts segs)⟩ :=
  ⟨selectedManual_not_generated hsel, handleListing_manual_ok hsel hfetch hne⟩

/-- C1 witness: on `[{fr, manual, ok}, {en, generated, ok}]` the selector
picks the manual French transcript and reports language `fr`. -/
theorem C1_manual_over_generated_witness :
    selectedManual c1List = some c1Fr ∧
    c1Fr.fetchResult = Except.ok [⟨"bonjour".data, 0, 0⟩] ∧
    c1Fr.is_generated = false ∧
    handleListing (.ok c1List) =
      ⟨true, none, some "fr".data, some "bonjour".data⟩ :=
  ⟨by decide, by decide,
   (C1_manual_over_generated c1List c1Fr [⟨"bonjour".data, 0, 0⟩]
      (by decide) (by decide) (by decide)).1,
   (C1_manual_over_generated c1List c1Fr [⟨"bonjour".data, 0, 0⟩]
      (by decide) (by decide) (by decide)).2⟩

/-! ### C2 -/

/-- A manually-authored descriptor whose language code is the (unusual but
possible) string `fr_generated`, with a successful one-segment fetch. -/
def c2FrGen : TranscriptDescriptor :=
  ⟨"fr_generated".data, false, .ok [⟨"x".data, 0, 0⟩]⟩

/-- Manual English descriptor with a successful fetch. -/
def c2En : TranscriptDescriptor := ⟨"en".data, false, .ok [⟨"hi".data, 0, 0⟩]⟩

/-- Manual French descriptor with a successful fetch. -/
def c2Fr : TranscriptDescriptor := ⟨"fr".data, false, .ok [⟨"salut".data, 0, 0⟩]⟩

/-- C2 counterexample: the manual group is non-empty and has no `en`
descriptor, the first manual descriptor is fetched successfully, but the
response's language is `fr`, not the descriptor's languageCode
`fr_generated`: lines 128-131 strip the `_generated` suffix from a manual
transcript's code, so the language is not "exactly that descriptor's
languageCode" for every possible languageCode string. -/
theorem C2_counterexample :
    c2FrGen.is_generated = false ∧ c2FrGen.language_code = "fr_generated".data ∧
    handleListing (.ok [c2FrGen]) = ⟨true, none, some "fr".data, some "x".data⟩ ∧
    some c2FrGen.language_code ≠ (handleListing (.ok [c2FrGen])).language := by
  refine ⟨by decide, by decide, by decide, by decide⟩

/-- C2 (amended): for every descriptor list whose manual group is non-empty:
if some manual descriptor has languageCode "en", the first such is fetched
and — provided the fetch succeeds with at least one segment — the response
reports language "en"; otherwise the first manual descriptor in service
order is fetched and — provided that fetch succeeds with at least one
segment — the response reports language equal to that descriptor's
languageCode with the trailing `_generated` adjustment of lines 128-131
applied (which leaves every languageCode not ending in `_generated`, such as
any ordinary code, unchanged). -/
theorem C2_manual_selection (descs : List TranscriptDescriptor) :
    (∀ d segs, (descs.filter (fun t => !t.is_generated)).find?
        (fun t => t.language_code = "en".data) = some d →
      d.fetchResult = Except.ok segs → segs ≠ [] →
      handleListing (.ok descs) =
        ⟨true, none, some "en".data, some (joinTexts segs)⟩) ∧
    (∀ d segs, (descs.filter (fun t => !t.is_generated)).find?
        (fun t => t.language_code = "en".data) = none →
      (descs.filter (fun t => !t.is_generated)).head? = some d →
      d.fetchResult = Except.ok segs → segs ≠ [] →
      handleListing (.ok descs) =
        ⟨true, none, some (stripGen d.language_code), some (joinTexts segs)⟩) := by
  constructor
  · intro d segs hfind hfetch hne
    have hsel : selectedManual descs = some d := by
      unfold selectedManual
      dsimp only
      rw [hfind]
    have hen : d.language_code = "en".data := by simpa using List.find?_some hfind
    have hres := handleListing_manual_ok hsel hfetch hne
    rw [hen] at hres
    exact hres
  · intro d segs hfind hhead hfetch hne
    have hsel : selectedManual descs = some d := by
      unfold selectedManual
      dsimp only
      rw [hfind, hhead]
    exact handleListing_manual_ok hsel hfetch hne

/-- C2 witness: with manual `[{en, ok "hi"}]` the response reports language
`en`; with manual `[{fr, ok "salut"}]` (no `en`) the response reports
language `fr`, the descriptor's own code. -/
theorem C2_manual_selection_witness :
    ([c2En].filter (fun t => !t.is_generated)).find?
        (fun t => t.language_code = "en".data) = some c2En ∧
    handleListing (.ok [c2En]) =
      ⟨true, none, some "en".data, some "hi".data⟩ ∧
    ([c2Fr].filter (fun t => !t.is_generated)).find?
        (fun t => t.language_code = "en".data) = none ∧
    handleListing (.ok [c2Fr]) =
      ⟨true, none, some "fr".data, some "salut".data⟩ :=
  ⟨by decide,
   (C2_manual_selection [c2En]).1 c2En [⟨"hi".data, 0, 0⟩]
     (by decide) (by decide) (by decide),
   by decide,
   (C2_manual_selection [c2Fr]).2 c2Fr [⟨"salut".data, 0, 0⟩]
     (by decide) (by decide) (by decide) (by decide)⟩

/-! ### C3 -/

/-- Generated English descriptor whose fetch raises. -/
def c3BadEnGen : TranscriptDescriptor := ⟨"en".data, true, .error "boom".data⟩

/-- Generated Spanish descriptor with a successful fetch. -/
def c3EsGen : TranscriptDescriptor := ⟨"es".data, true, .ok [⟨"hola".data, 0, 0⟩]⟩

/-- Generated English descriptor with a successful fetch. -/
def c3EnGen : TranscriptDescriptor := ⟨"en".data, true, .ok [⟨"hi".data, 0, 0⟩]⟩

/-- C3 counterexample: the descriptor list has no manual transcript and its
generated group contains an `en` descriptor, which is fetched — but the fetch
raises, the exception is swallowed, and the endpoint reports
`no_transcript_available` instead of language `en_generated`. -/
theorem C3_counterexample :
    c3BadEnGen.is_generated = true ∧ c3BadEnGen.language_code = "en".data ∧
    handleListing (.ok [c3BadEnGen]) =
      ⟨false, some "no_transcript_available".data, none, none⟩ := by
  refine ⟨by decide, by decide, by decide⟩

/-- C3 (amended): for every descriptor list whose manual phase produced no
(truthy) transcript and whose generated group is non-empty, the generated
descriptor the selector fetches is the first with languageCode "en" if any,
else the first generated one in service order; provided that fetch succeeds
with at least one segment, the response reports language
`<its languageCode>_generated` (so literally `en_generated` for English). -/
theorem C3_generated_selection
    (descs : List TranscriptDescriptor) (d : TranscriptDescriptor)
    (segs : List Segment)
    (hman : truthy (afterManual descs).found_transcript = false)
    (hsel : selectedGenerated descs = some d)
    (hfetch : d.fetchResult = Except.ok segs) (hne : segs ≠ []) :
    d.is_generated = true ∧
    handleListing (.ok descs) =
      ⟨true, none, some (d.language_code ++ "_generated".data),
        some (joinTexts segs)⟩ :=
  ⟨selectedGenerated_is_generated hsel,
   handleListing_generated_ok hman hsel hfetch hne⟩

/-- C3 witness: `[{es, generated, ok}, {en, generated, ok}]` has no manual
transcript; the generated `en` descriptor is selected and the response
reports language `en_generated`. -/
theorem C3_generated_selection_witness :
    truthy (afterManual [c3EsGen, c3EnGen]).found_transcript = false ∧
    selectedGenerated [c3EsGen, c3EnGen] = some c3EnGen ∧
    c3EnGen.is_generated = true ∧
    handleListing (.ok [c3EsGen, c3EnGen]) =
      ⟨true, none, some "en_generated".data, some "hi".data⟩ :=
  ⟨by decide, by decide,
   (C3_generated_selection [c3EsGen, c3EnGen] c3EnGen [⟨"hi".data, 0, 0⟩]
      (by decide) (by decide) (by decide) (by decide)).1,
   (C3_generated_selection [c3EsGen, c3EnGen] c3EnGen [⟨"hi".data, 0, 0⟩]
      (by decide) (by decide) (by decide) (by decide)).2⟩

/-! ### C4 -/

/-- C4: for every input string, `extract_video_id` returns the capture of the
first pattern that matches, trying the three patterns in their fixed order
(the second and third are never consulted once an earlier one matched); any
returned identifier contains no `#`, `&` or `?` (the capture group stops at
the first such character); and the empty string and "not a url" yield `None`
because no rule matches anywhere in them. -/
theorem C4_resolver_priority (url : List Char) :
    extract_video_id url =
      ((reSearchGroup pattern1 url).orElse fun _ =>
        (reSearchGroup pattern2 url).orElse fun _ =>
          reSearchGroup pattern3 url) ∧
    (∀ v, extract_video_id url = some v → ∀ c ∈ v, isStopChar c = false) ∧
    extract_video_id "".data = none ∧
    extract_video_id "not a url".data = none := by
  refine ⟨?_, ?_, by decide, by decide⟩
  · unfold extract_video_id patterns
    cases h1 : reSearchGroup pattern1 url with
    | some w => simp [List.findSome?_cons, h1, Option.orElse]
    | none =>
      cases h2 : reSearchGroup pattern2 url with
      | some w => simp [List.findSome?_cons, h1, h2, Option.orElse]
      | none =>
        cases h3 : reSearchGroup pattern3 url with
        | some w => simp [List.findSome?_cons, h1, h2, h3, Option.orElse]
        | none => simp [List.findSome?_cons, h1, h2, h3, Option.orElse]
  · intro v hv c hc
    unfold extract_video_id patterns at hv
    cases h1 : reSearchGroup pattern1 url with
    | some w =>
      simp only [List.findSome?_cons, h1] at hv
      cases hv
      exact no_stop_of_reSearchGroup h1 hc
    | none =>
      simp only [List.findSome?_cons, h1] at hv
      cases h2 : reSearchGroup pattern2 url with
      | some w =>
        simp only [List.findSome?_cons, h2] at hv
        cases hv
        exact no_stop_of_reSearchGroup h2 hc
      | none =>
        simp only [List.findSome?_cons, h2] at hv
        cases h3 : reSearchGroup pattern3 url with
        | some w =>
          simp only [List.findSome?_cons, h3, List.findSome?_nil] at hv
          cases hv
          exact no_stop_of_reSearchGroup h3 hc
        | none =>
          rw [h3] at hv
          simp at hv

/-- C4 witness: a short-URL with a query suffix resolves to the identifier
cut at `?`, and that identifier has no stop characters. -/
theorem C4_resolver_priority_witness :
    extract_video_id "https://youtu.be/abc?t=1".data = some "abc".data ∧
    isStopChar 'a' = false :=
  ⟨by decide,
   (C4_resolver_priority "https://youtu.be/abc?t=1".data).2.1 "abc".data
     (by decide) 'a' (by decide)⟩

/-! ### C5 -/

/-- Manual English descriptor whose fetch raises with message `boom`. -/
def c5BadFetch : TranscriptDescriptor := ⟨"en".data, false, .error "boom".data⟩

/-- C5 counterexample: a failure raised while fetching the chosen descriptor
is not mapped to `other: <message>`: the chosen manual descriptor's fetch
raises `boom`, the exception is swallowed by the inner `except` (lines
97-98), and the endpoint reports `no_transcript_available` instead of
`other: boom`. -/
theorem C5_counterexample :
    c5BadFetch.fetchResult = Except.error "boom".data ∧
    handleListing (.ok [c5BadFetch]) =
      ⟨false, some "no_transcript_available".data, none, none⟩ ∧
    (handleListing (.ok [c5BadFetch])).fail_reason ≠
      some ("other: ".data ++ "boom".data) := by
  refine ⟨by decide, by decide, by decide⟩

/-- C5 (amended): every failure raised by the listing call
(`list_transcripts`) that is neither TranscriptsDisabled nor
NoTranscriptFound makes the endpoint return success = false with
fail_reason = `other: <message>`, where `<message>` is that failure's
description; failures raised while fetching a chosen descriptor are instead
suppressed by the inner handlers (see C9). -/
theorem C5_other_listing_failure (url vid msg : List Char)
    (svc : List Char → ListingResult)
    (hex : extract_video_id url = some vid) (hne : vid ≠ [])
    (hsvc : svc vid = .otherError msg) :
    get_transcript url svc =
      ⟨false, some ("other: ".data ++ msg), none, none⟩ := by
  unfold get_transcript
  rw [hex]
  simp [hne, hsvc, handleListing]

/-- C5 witness: a service whose listing raises an unexpected failure with
message `boom` yields fail_reason `other: boom`. -/
theorem C5_other_listing_failure_witness :
    extract_video_id "https://youtu.be/abc".data = some "abc".data ∧
    get_transcript "https://youtu.be/abc".data
        (fun _ => .otherError "boom".data) =
      ⟨false, some ("other: ".data ++ "boom".data), none, none⟩ :=
  ⟨by decide,
   C5_other_listing_failure "https://youtu.be/abc".data "abc".data "boom".data
     (fun _ => .otherError "boom".data) (by decide) (by decide) rfl⟩

/-! ### C6 -/

/-- C6: if the retrieval service signals transcripts-disabled, the endpoint
returns success = false with fail_reason `transcripts_disabled`; if it
signals no-transcript-found, fail_reason is `no_transcript_found_for_video`;
in both cases language and transcript are null. -/
theorem C6_disabled_and_not_found (url vid : List Char)
    (svc : List Char → ListingResult)
    (hex : extract_video_id url = some vid) (hne : vid ≠ []) :
    (svc vid = .transcriptsDisabled →
      get_transcript url svc =
        ⟨false, some "transcripts_disabled".data, none, none⟩) ∧
    (svc vid = .noTranscriptFound →
      get_transcript url svc =
        ⟨false, some "no_transcript_found_for_video".data, none, none⟩) := by
  constructor <;> intro hsvc <;> unfold get_transcript <;> rw [hex] <;>
    simp [hne, hsvc, handleListing]

/-- C6 witness: with a resolvable URL, a transcripts-disabled service yields
`transcripts_disabled` and a no-transcript-found service yields
`no_transcript_found_for_video`. -/
theorem C6_disabled_and_not_found_witness :
    extract_video_id "https://youtu.be/abc".data = some "abc".data ∧
    get_transcript "https://youtu.be/abc".data (fun _ => .transcriptsDisabled) =
      ⟨false, some "transcripts_disabled".data, none, none⟩ ∧
    get_transcript "https://youtu.be/abc".data (fun _ => .noTranscriptFound) =
      ⟨false, some "no_transcript_found_for_video".data, none, none⟩ :=
  ⟨by decide,
   (C6_disabled_and_not_found "https://youtu.be/abc".data "abc".data
      (fun _ => .transcriptsDisabled) (by decide) (by decide)).1 rfl,
   (C6_disabled_and_not_found "https://youtu.be/abc".data "abc".data
      (fun _ => .noTranscriptFound) (by decide) (by decide)).2 rfl⟩

/-! ### C7 -/

/-- C7: for every descriptor list from which neither the manual nor the
generated phase left a (truthy) fetched transcript — in particular the empty
list, see the witness — the endpoint returns success = false with
fail_reason `no_transcript_available` and null language and transcript. -/
theorem C7_no_selection (url vid : List Char)
    (svc : List Char → ListingResult) (descs : List TranscriptDescriptor)
    (hex : extract_video_id url = some vid) (hne : vid ≠ [])
    (hsvc : svc vid = .ok descs)
    (hnone : truthy
      (afterGenerated descs (afterManual descs)).found_transcript = false) :
    get_transcript url svc =
      ⟨false, some "no_transcript_available".data, none, none⟩ := by
  unfold get_transcript
  rw [hex]
  simp only [hne, if_false, if_neg hne, hsvc]
  exact handleListing_not_truthy hnone

/-- C7 witness: the empty descriptor list produces
`no_transcript_available`. -/
theorem C7_no_selection_witness :
    extract_video_id "https://youtu.be/abc".data = some "abc".data ∧
    truthy (afterGenerated [] (afterManual [])).found_transcript = false ∧
    get_transcript "https://youtu.be/abc".data (fun _ => .ok []) =
      ⟨false, some "no_transcript_available".data, none, none⟩ :=
  ⟨by decide, by decide,
   C7_no_selection "https://youtu.be/abc".data "abc".data
     (fun _ => .ok []) [] (by decide) (by decide) rfl (by decide)⟩

/-! ### C8 -/

/-- Manual English descriptor whose fetch succeeds with zero segments. -/
def c8EmptyFetch : TranscriptDescriptor := ⟨"en".data, false, .ok []⟩

/-- C8 counterexample: a successfully fetched but empty segment list does not
produce the (empty) joined transcript: the empty Python list is falsy at
lines 100 and 123, so the endpoint returns `no_transcript_available` with a
null transcript instead of success with transcript `""`. -/
theorem C8_counterexample :
    c8EmptyFetch.fetchResult = Except.ok [] ∧
    handleListing (.ok [c8EmptyFetch]) =
      ⟨false, some "no_transcript_available".data, none, none⟩ ∧
    (handleListing (.ok [c8EmptyFetch])).transcript ≠ some (joinTexts []) := by
  refine ⟨by decide, by decide, by decide⟩

/-- C8 (amended): whenever the selection ends with a successfully fetched
non-empty segment list, the returned transcript equals the segments' text
fields joined in their original order with a single space between
consecutive texts; the start and duration fields are discarded (replacing
them changes nothing). -/
theorem C8_transcript_join (descs : List TranscriptDescriptor)
    (segs : List Segment)
    (hf : (afterGenerated descs (afterManual descs)).found_transcript =
      some segs)
    (hne : segs ≠ []) :
    (handleListing (.ok descs)).success = true ∧
    (handleListing (.ok descs)).transcript =
      some (List.intercalate [' '] (segs.map (fun s => s.text))) ∧
    joinTexts (segs.map (fun s => ⟨s.text, 0, 0⟩)) = joinTexts segs := by
  have ht := truthy_some_of_ne_nil hne
  have hres : handleListing (.ok descs) =
      finishSelection (afterGenerated descs (afterManual descs)) := rfl
  rcases hst : afterGenerated descs (afterManual descs) with ⟨f, l, g⟩
  rw [hst] at hf
  dsimp only at hf
  subst hf
  rw [hres, hst]
  refine ⟨?_, ?_, ?_⟩
  · simp [finishSelection, ht]
  · simp [finishSelection, ht, joinTexts]
  · unfold joinTexts
    rw [List.map_map]
    rfl

/-- C8 witness: segments `[{Hello}, {world}]` yield transcript
`Hello world`. -/
theorem C8_transcript_join_witness :
    (afterGenerated [⟨"en".data, false,
        .ok [⟨"Hello".data, 0, 0⟩, ⟨"world".data, 0, 0⟩]⟩]
      (afterManual [⟨"en".data, false,
        .ok [⟨"Hello".data, 0, 0⟩, ⟨"world".data, 0, 0⟩]⟩])).found_transcript =
      some [⟨"Hello".data, 0, 0⟩, ⟨"world".data, 0, 0⟩] ∧
    (handleListing (.ok [⟨"en".data, false,
        .ok [⟨"Hello".data, 0, 0⟩, ⟨"world".data, 0, 0⟩]⟩])).transcript =
      some "Hello world".data :=
  ⟨by decide,
   (C8_transcript_join
      [⟨"en".data, false, .ok [⟨"Hello".data, 0, 0⟩, ⟨"world".data, 0, 0⟩]⟩]
      [⟨"Hello".data, 0, 0⟩, ⟨"world".data, 0, 0⟩]
      (by decide) (by decide)).2.1⟩

/-! ### C9 -/

/-- Manual French descriptor whose fetch raises with message `m1`. -/
def c9BadMan : TranscriptDescriptor := ⟨"fr".data, false, .error "m1".data⟩

/-- Generated Spanish descriptor whose fetch raises with message `m2`. -/
def c9BadGen : TranscriptDescriptor := ⟨"es".data, true, .error "m2".data⟩

/-- C9: when the chosen manual descriptor's fetch raises, the exception is
suppressed and the state is left as initialised, so the generated group is
evaluated next; when the chosen generated descriptor's fetch also raises,
the listing result maps to `no_transcript_available`; and for every
successful listing the fail_reason is either null or
`no_transcript_available` — a fetch exception message never appears in
fail_reason. -/
theorem C9_fetch_exceptions_suppressed :
    (∀ descs d msg, selectedManual descs = some d →
      d.fetchResult = Except.error msg →
      afterManual descs = ⟨none, none, false⟩) ∧
    (∀ descs d msg d2 msg2, selectedManual descs = some d →
      d.fetchResult = Except.error msg →
      selectedGenerated descs = some d2 →
      d2.fetchResult = Except.error msg2 →
      handleListing (.ok descs) =
        ⟨false, some "no_transcript_available".data, none, none⟩) ∧
    (∀ descs, (handleListing (.ok descs)).fail_reason = none ∨
      (handleListing (.ok descs)).fail_reason =
        some "no_transcript_available".data) := by
  refine ⟨fun descs d msg hsel hf => afterManual_error hsel hf, ?_, ?_⟩
  · intro descs d msg d2 msg2 hsel hf hsel2 hf2
    have hm := afterManual_error hsel hf
    have hg : afterGenerated descs (afterManual descs) = afterManual descs := by
      apply afterGenerated_error _ hsel2 hf2
      rw [hm]
      rfl
    apply handleListing_not_truthy
    rw [hg, hm]
    rfl
  · intro descs
    have hres : handleListing (.ok descs) =
        finishSelection (afterGenerated descs (afterManual descs)) := rfl
    rw [hres]
    cases ht : truthy
        (afterGenerated descs (afterManual descs)).found_transcript with
    | true => left; simp [finishSelection, ht]
    | false => right; simp [finishSelection, ht]

/-- C9 witness: with a manual and a generated descriptor whose fetches both
raise, the manual phase leaves the initial state and the endpoint reports
`no_transcript_available`; on the empty listing the fail_reason is one of
null or `no_transcript_available`. -/
theorem C9_fetch_exceptions_suppressed_witness :
    selectedManual [c9BadMan, c9BadGen] = some c9BadMan ∧
    selectedGenerated [c9BadMan, c9BadGen] = some c9BadGen ∧
    afterManual [c9BadMan, c9BadGen] = ⟨none, none, false⟩ ∧
    handleListing (.ok [c9BadMan, c9BadGen]) =
      ⟨false, some "no_transcript_available".data, none, none⟩ ∧
    ((handleListing (.ok [])).fail_reason = none ∨
      (handleListing (.ok [])).fail_reason =
        some "no_transcript_available".data) :=
  ⟨by decide, by decide,
   C9_fetch_exceptions_suppressed.1 [c9BadMan, c9BadGen] c9BadMan "m1".data
     (by decide) (by decide),
   C9_fetch_exceptions_suppressed.2.1 [c9BadMan, c9BadGen] c9BadMan "m1".data
     c9BadGen "m2".data (by decide) (by decide) (by decide) (by decide),
   C9_fetch_exceptions_suppressed.2.2 []⟩

/-! ### C10 -/

/-- C10: when a URL pattern matches but the captured identifier is the empty
string, `if not video_id:` treats it like no match: the endpoint returns
`invalid_url`, and the response does not depend on the retrieval service at
all (no request with an empty video identifier reaches it); the URL
`https://www.youtube.com/watch?v=` is such an input. -/
theorem C10_empty_video_id_invalid :
    (∀ url (svc : List Char → ListingResult), extract_video_id url = some [] →
      get_transcript url svc =
        ⟨false, some "invalid_url".data, none, none⟩) ∧
    (∀ url (svc svc2 : List Char → ListingResult),
      extract_video_id url = some [] →
      get_transcript url svc = get_transcript url svc2) ∧
    extract_video_id "https://www.youtube.com/watch?v=".data = some [] := by
  have key : ∀ url (svc : List Char → ListingResult),
      extract_video_id url = some [] →
      get_transcript url svc = ⟨false, some "invalid_url".data, none, none⟩ := by
    intro url svc hex
    unfold get_transcript
    rw [hex]
    simp
  refine ⟨key, fun url svc svc2 hex => ?_, by decide⟩
  rw [key url svc hex, key url svc2 hex]

/-- C10 witness: on `https://www.youtube.com/watch?v=` the capture is empty,
the endpoint reports `invalid_url`, and two services that would answer
differently produce the same response. -/
theorem C10_empty_video_id_invalid_witness :
    extract_video_id "https://www.youtube.com/watch?v=".data = some [] ∧
    get_transcript "https://www.youtube.com/watch?v=".data (fun _ => .ok []) =
      ⟨false, some "invalid_url".data, none, none⟩ ∧
    get_transcript "https://www.youtube.com/watch?v=".data (fun _ => .ok []) =
      get_transcript "https://www.youtube.com/watch?v=".data
        (fun _ => .transcriptsDisabled) :=
  ⟨by decide,
   C10_empty_video_id_invalid.1 "https://www.youtube.com/watch?v=".data
     (fun _ => .ok []) (by decide),
   C10_empty_video_id_invalid.2.1 "https://www.youtube.com/watch?v=".data
     (fun _ => .ok []) (fun _ => .transcriptsDisabled) (by decide)⟩
